import Mathlib

/-!
Shallow embedding of the identity/access-control core and the visitor
analytics of the ogrenci_tak-p repository.

The JavaScript sources embedded here:
* `middleware/verifyToken.js` (src/unnamed/part_008): `verifyToken`,
  `authorizeRoles`, `teacherOnly`, `studentOnly`, `adminOnly`;
* `middleware/auth.js` (second half of src/backend/src/routes/admin.js):
  `protect`, `authorize`;
* `routes/auth.js` (src/unnamed/part_001): `POST /login`,
  `POST /student-login`, `GET /check`;
* `utils/jwtHelper.js`: `verifyToken` (the Token Service verify);
* `middleware/visitorTracking.js` (src/unnamed/part_009): `isBot`,
  `trackOnlineUser`, `trackVisitor`;
* `models/Analytics.js`: `getOnlineCount`;
* `controllers/analyticsController.js`: `getWeeklyStats`,
  `getMonthlyStats`, `getPopularPages`.

Timestamps are milliseconds since the epoch, as integers.  JavaScript
string operations used by the source (`startsWith`, `split(' ')`,
case-insensitive pattern test) are modelled on character lists so that
every definition evaluates by kernel reduction.
-/

namespace OgrenciTakip

/-- JS `s.startsWith(pat)`. -/
def jsStartsWith (s pat : String) : Bool :=
  pat.data.isPrefixOf s.data

/-- Accumulator for `jsSplitSpace`: splits a character list at every space,
keeping empty segments, exactly like JS `split(' ')`. -/
def splitSpaceAux : List Char → List Char → List (List Char)
  | [], acc => [acc.reverse]
  | c :: rest, acc =>
      if c = ' ' then acc.reverse :: splitSpaceAux rest []
      else splitSpaceAux rest (c :: acc)

/-- JS `s.split(' ')`. -/
def jsSplitSpace (s : String) : List String :=
  (splitSpaceAux s.data []).map String.mk

/-- ASCII lower-casing of a string, character by character. -/
def lowerStr (s : String) : String :=
  String.mk (s.data.map Char.toLower)

/-- Contiguous-substring test on character lists. -/
def hasInfix (pat : List Char) : List Char → Bool
  | [] => pat.isEmpty
  | c :: rest => pat.isPrefixOf (c :: rest) || hasInfix pat rest

/-- Case-insensitive substring test: models a JS regex `/pat/i.test(hay)`
for a literal pattern `pat`. -/
def containsCI (hay pat : String) : Bool :=
  hasInfix (lowerStr pat).data (lowerStr hay).data

/-! ## Token Service (`utils/jwtHelper.js`, `jsonwebtoken`) -/

/-- Decoded JWT payload: `{ id, userType }` as issued by `generateToken`. -/
structure Claims where
  id : String
  userType : String
deriving DecidableEq, Repr

/-- The three failure modes of `jsonwebtoken`'s `jwt.verify`:
an unparseable payload and a signature mismatch both raise
`JsonWebTokenError`; an elapsed expiry raises `TokenExpiredError`. -/
inductive JwtError where
  | unparseable
  | badSignature
  | expired
deriving DecidableEq, Repr

/-- A bearer-token value as the verifier sees it: the payload it would
decode to, whether the payload parses, whether the signature matches the
server secret, and the expiry instant. -/
structure Token where
  claims : Claims
  parseOk : Bool
  sigValid : Bool
  expiresAt : Int
deriving DecidableEq, Repr

/-- `jwt.verify(token, secret)`: decode, check signature, check expiry. -/
def jwtVerify (now : Int) (t : Token) : Except JwtError Claims :=
  if !t.parseOk then .error .unparseable
  else if !t.sigValid then .error .badSignature
  else if t.expiresAt ≤ now then .error .expired
  else .ok t.claims

/-- `jwtHelper.verifyToken`: `try { return jwt.verify(...) } catch { return null }`. -/
def jwtHelperVerifyToken (now : Int) (t : Token) : Option Claims :=
  match jwtVerify now t with
  | .ok c => some c
  | .error _ => none

/-! ## Requests and credential extraction -/

/-- The parts of an HTTP request the authentication code reads:
the `Authorization` header and the `token` cookie. -/
structure Request where
  authorization : Option String
  cookieToken : Option String
deriving DecidableEq, Repr

/-- Credential extraction shared by `verifyToken`, `protect`, `optionalAuth`
and `GET /api/auth/check`: if the `Authorization` header is present and
starts with `Bearer`, take the second space-separated word; otherwise fall
back to the `token` cookie. -/
def extractToken (req : Request) : Option String :=
  match req.authorization with
  | some h =>
      if jsStartsWith h "Bearer" then (jsSplitSpace h).get? 1
      else req.cookieToken
  | none => req.cookieToken

/-! ## Credential store -/

/-- A Staff (`User` model) record: teacher or admin. -/
structure StaffRec where
  id : String
  email : String
  password : String
  role : String
  isActive : Bool
deriving DecidableEq, Repr

/-- A `Student` model record. -/
structure StudentRec where
  id : String
  studentNumber : String
  password : String
  isActive : Bool
deriving DecidableEq, Repr

/-- The document database as the auth code uses it. -/
structure DB where
  users : List StaffRec
  students : List StudentRec
deriving Repr

/-- `User.findById`. -/
def DB.findUser (db : DB) (uid : String) : Option StaffRec :=
  db.users.find? (fun u => u.id = uid)

/-- `Student.findById`. -/
def DB.findStudent (db : DB) (uid : String) : Option StudentRec :=
  db.students.find? (fun s => s.id = uid)

/-! ## Authentication middleware -/

/-- A JSON rejection body plus HTTP status: `{ success, message, code? }`.
`code := none` models a body with no `code` field. -/
structure ErrorResponse where
  status : Nat
  success : Bool
  message : String
  code : Option String
deriving DecidableEq, Repr

/-- The principal a middleware attaches to `req.user` on success. -/
structure AuthedUser where
  id : String
  isActive : Bool
  userType : String
deriving DecidableEq, Repr

/-- Outcome of an authentication middleware: pass control with a loaded
principal, or answer with a rejection. -/
inductive AuthResult where
  | ok (user : AuthedUser)
  | err (r : ErrorResponse)
deriving DecidableEq, Repr

/-- Map a `jwt.verify` error to the catch branch of
`verifyToken` (part_008): `TokenExpiredError → TOKEN_EXPIRED`,
`JsonWebTokenError → TOKEN_MALFORMED`. -/
def jwtErrCode : JwtError → String
  | .expired => "TOKEN_EXPIRED"
  | .unparseable => "TOKEN_MALFORMED"
  | .badSignature => "TOKEN_MALFORMED"

/-- Message of the catch branch of `verifyToken` (part_008). -/
def jwtErrMessage : JwtError → String
  | .expired => "Token süresi dolmuş"
  | .unparseable => "Geçersiz token"
  | .badSignature => "Geçersiz token"

/-- The strict authentication middleware `verifyToken`
(`middleware/verifyToken.js`, src/unnamed/part_008 lines 6-96).
`env` maps a token string to the token value it decodes to. -/
def verifyTokenMW (db : DB) (env : String → Token) (now : Int)
    (req : Request) : AuthResult :=
  match extractToken req with
  | none =>
      .err ⟨401, false, "Erişim reddedildi. Lütfen giriş yapınız.", some "NO_TOKEN"⟩
  | some ts =>
      match jwtVerify now (env ts) with
      | .error e => .err ⟨401, false, jwtErrMessage e, some (jwtErrCode e)⟩
      | .ok decoded =>
          if decoded.userType = "student" then
            match db.findStudent decoded.id with
            | none => .err ⟨401, false, "Öğrenci bulunamadı", some "USER_NOT_FOUND"⟩
            | some s =>
                if !s.isActive then
                  .err ⟨401, false, "Hesabınız deaktif durumda", some "ACCOUNT_DEACTIVATED"⟩
                else .ok ⟨s.id, s.isActive, decoded.userType⟩
          else if decoded.userType = "teacher" || decoded.userType = "admin" then
            match db.findUser decoded.id with
            | none => .err ⟨401, false, "Kullanıcı bulunamadı", some "USER_NOT_FOUND"⟩
            | some u =>
                if !u.isActive then
                  .err ⟨401, false, "Hesabınız deaktif durumda", some "ACCOUNT_DEACTIVATED"⟩
                else .ok ⟨u.id, u.isActive, decoded.userType⟩
          else
            .err ⟨401, false, "Geçersiz kullanıcı tipi", some "INVALID_USER_TYPE"⟩

/-- The parallel strict middleware `protect` (`middleware/auth.js`,
src/backend/src/routes/admin.js lines 58-114).  None of its rejection
bodies carries a `code` field.  When the looked-up record is `null` the
source dereferences it (`user.userType = ...`) and the thrown `TypeError`
lands in the catch branch, so a missing student or staff record answers
with the generic invalid-token body; an unrecognized `userType` leaves
`user` undefined and reaches the not-found body. -/
def protect (db : DB) (env : String → Token) (now : Int)
    (req : Request) : AuthResult :=
  match extractToken req with
  | none => .err ⟨401, false, "Erişim reddedildi. Lütfen giriş yapın.", none⟩
  | some ts =>
      match jwtVerify now (env ts) with
      | .error _ => .err ⟨401, false, "Geçersiz token", none⟩
      | .ok decoded =>
          if decoded.userType = "student" then
            match db.findStudent decoded.id with
            | none => .err ⟨401, false, "Geçersiz token", none⟩
            | some s =>
                if !s.isActive then .err ⟨401, false, "Hesap deaktif durumda", none⟩
                else .ok ⟨s.id, s.isActive, "student"⟩
          else if decoded.userType = "teacher" || decoded.userType = "admin" then
            match db.findUser decoded.id with
            | none => .err ⟨401, false, "Geçersiz token", none⟩
            | some u =>
                if !u.isActive then .err ⟨401, false, "Hesap deaktif durumda", none⟩
                else .ok ⟨u.id, u.isActive, decoded.userType⟩
          else
            .err ⟨401, false, "Kullanıcı bulunamadı", none⟩

/-- `GET /api/auth/check` (src/unnamed/part_001 lines 281-327): always
HTTP 200; `authenticated` is true only for a verifiable token whose
principal exists and is active. -/
def authCheck (db : DB) (env : String → Token) (now : Int)
    (req : Request) : Nat × Bool :=
  match extractToken req with
  | none => (200, false)
  | some ts =>
      match jwtVerify now (env ts) with
      | .error _ => (200, false)
      | .ok decoded =>
          let active? :=
            if decoded.userType = "student" then
              (db.findStudent decoded.id).map StudentRec.isActive
            else
              (db.findUser decoded.id).map StaffRec.isActive
          match active? with
          | none => (200, false)
          | some a => (200, a)

/-! ## Authorization policy -/

/-- JS `allowedRoles.join(' veya ')`. -/
def joinVeya : List String → String
  | [] => ""
  | [x] => x
  | x :: y :: rest => x ++ " veya " ++ joinVeya (y :: rest)

/-- The denial message built by `authorizeRoles`: it interpolates the
required role list and the caller's actual role. -/
def roleDenialMsg (allowedRoles : List String) (userRole : String) : String :=
  "Bu işlem için " ++ joinVeya allowedRoles ++
    " yetkisi gereklidir. Mevcut yetki: " ++ userRole

/-- `authorizeRoles(...allowedRoles)` (part_008 lines 99-121) applied to
the principal the preceding middleware attached (`none` = no `req.user`).
Returns `none` when the request passes through. -/
def authorizeRoles (allowedRoles : List String) (user? : Option AuthedUser) :
    Option ErrorResponse :=
  match user? with
  | none => some ⟨401, false, "Önce giriş yapmalısınız", some "NOT_AUTHENTICATED"⟩
  | some u =>
      if allowedRoles.contains u.userType then none
      else
        some ⟨403, false, roleDenialMsg allowedRoles u.userType,
          some "INSUFFICIENT_PERMISSION"⟩

/-- `authorize(...roles)` (`middleware/auth.js`, admin.js lines 117-136):
the parallel role gate; its denial carries a fixed message and no code. -/
def authorize (roles : List String) (user? : Option AuthedUser) :
    Option ErrorResponse :=
  match user? with
  | none => some ⟨401, false, "Erişim reddedildi", none⟩
  | some u =>
      if roles.contains u.userType then none
      else some ⟨403, false, "Bu işlem için yetkiniz yok", none⟩

/-! ## Login flows (src/unnamed/part_001) -/

/-- Outcome of a login handler: either a rejection, or a token whose
claims are recorded (`sendTokenResponse` signs `{ id, userType }`). -/
inductive LoginResult where
  | rejected (status : Nat) (message : String)
  | issued (status : Nat) (claims : Claims)
deriving DecidableEq, Repr

/-- `POST /api/auth/login` (part_001 lines 67-119) after input validation:
look the staff member up by email, reject if missing, reject if
deactivated, only then compare the password, and finally issue a token
for `{ id, userType := role }`. -/
def login (db : DB) (email password : String) : LoginResult :=
  match db.users.find? (fun u => u.email = email) with
  | none => .rejected 401 "Geçersiz email veya şifre"
  | some u =>
      if !u.isActive then .rejected 401 "Hesabınız deaktif durumda"
      else if u.password = password then .issued 200 ⟨u.id, u.role⟩
      else .rejected 401 "Geçersiz email veya şifre"

/-- `POST /api/auth/student-login` (part_001 lines 124-176) after input
validation: the same shape keyed by student number, issuing a token
for `{ id, userType := "student" }`. -/
def studentLogin (db : DB) (studentNumber password : String) : LoginResult :=
  match db.students.find? (fun s => s.studentNumber = studentNumber) with
  | none => .rejected 401 "Geçersiz öğrenci numarası veya şifre"
  | some s =>
      if !s.isActive then .rejected 401 "Hesabınız deaktif durumda"
      else if s.password = password then .issued 200 ⟨s.id, "student"⟩
      else .rejected 401 "Geçersiz öğrenci numarası veya şifre"

/-! ## Visitor tracking (`middleware/visitorTracking.js`, src/unnamed/part_009) -/

/-- The literal crawler signatures of `BOT_PATTERNS`; every entry of the
source's regex list is a case-insensitive literal. -/
def BOT_PATTERNS : List String :=
  ["bot", "crawler", "spider", "scraper",
   "googlebot", "bingbot", "slurp", "duckduckbot",
   "baiduspider", "yandexbot", "facebookexternalhit",
   "twitterbot", "linkedinbot", "whatsapp",
   "telegrambot", "applebot", "curl", "wget"]

/-- `isBot(userAgentString)` (part_009 lines 95-98): an empty user agent
is not a bot; otherwise any pattern may match. -/
def isBot (userAgentString : String) : Bool :=
  if userAgentString = "" then false
  else BOT_PATTERNS.any (fun p => containsCI userAgentString p)

/-- The request fields the trackers read. -/
structure TrackReq where
  path : String
  ip : String
  userAgent : String
  sessionID : Option String
  referrer : Option String
  xPageTitle : Option String
  user : Option StaffRec
  teacher : Option StaffRec
  student : Option StudentRec
deriving Repr

/-- `getUserRole(req)` (part_009 lines 101-110). -/
def getUserRole (req : TrackReq) : String :=
  match req.user with
  | some u => if u.role = "admin" then "admin" else "teacher"
  | none =>
      match req.student with
      | some _ => "student"
      | none =>
          match req.teacher with
          | some _ => "teacher"
          | none => "guest"

/-- The skip list of `trackOnlineUser` (part_009 lines 116-121). -/
def skipOnline (path : String) : Bool :=
  jsStartsWith path "/uploads" || jsStartsWith path "/favicon" ||
    path = "/api/health" || path = "/robots.txt" || path = "/sitemap.xml"

/-- The skip list of `trackVisitor` (part_009 lines 191-195). -/
def skipVisitor (path : String) : Bool :=
  jsStartsWith path "/api" || jsStartsWith path "/uploads" ||
    jsStartsWith path "/favicon" || path = "/robots.txt" || path = "/sitemap.xml"

/-- An Online-Presence Record (`OnlineUser` collection), restricted to the
fields the claims touch. -/
structure OnlineRec where
  sessionId : String
  ip : String
  userAgent : String
  isAuthenticated : Bool
  userRole : String
  currentPage : String
  lastActivity : Int
  loginTime : Int
deriving DecidableEq, Repr

/-- The `$set` part of the presence upsert: overwrite every mutable field,
keep `loginTime` (it is `$setOnInsert`-only). -/
def refreshOnline (now : Int) (req : TrackReq) (r : OnlineRec) : OnlineRec :=
  { r with
    ip := req.ip
    userAgent := req.userAgent
    isAuthenticated := req.user.isSome || req.student.isSome || req.teacher.isSome
    userRole := getUserRole req
    currentPage := req.path
    lastActivity := now }

/-- The inserted document when no presence record matches the session id:
`$set` fields plus `loginTime := now` from `$setOnInsert`. -/
def insertOnline (now : Int) (req : TrackReq) (sid : String) : OnlineRec :=
  refreshOnline now req
    ⟨sid, req.ip, req.userAgent, false, "guest", "/", now, now⟩

/-- `OnlineUser.findOneAndUpdate({sessionId}, ..., {upsert:true})`:
update the first record with this session id, or append a new one. -/
def upsertOnline (now : Int) (req : TrackReq) (sid : String) :
    List OnlineRec → List OnlineRec
  | [] => [insertOnline now req sid]
  | r :: rest =>
      if r.sessionId = sid then refreshOnline now req r :: rest
      else r :: upsertOnline now req sid rest

/-- `trackOnlineUser` (part_009 lines 113-185).  `freshKey` stands for the
`guest_${Date.now()}_${Math.random()}` key generated when the request
carries no session identifier. -/
def trackOnlineUser (now : Int) (freshKey : String) (req : TrackReq)
    (store : List OnlineRec) : List OnlineRec :=
  if skipOnline req.path then store
  else if isBot req.userAgent then store
  else upsertOnline now req (req.sessionID.getD freshKey) store

/-- The trailing presence window: 30 minutes in milliseconds. -/
def onlineWindowMs : Int := 30 * 60 * 1000

/-- `OnlineUser.getOnlineCount` (`models/Analytics.js` lines 325-329):
count documents with `lastActivity ≥ now - 30 minutes`. -/
def getOnlineCount (now : Int) (store : List OnlineRec) : Nat :=
  (store.filter (fun r => now - onlineWindowMs ≤ r.lastActivity)).length

/-- First record with the given session id. -/
def findOnline (store : List OnlineRec) (sid : String) : Option OnlineRec :=
  store.find? (fun r => r.sessionId = sid)

/-! ## Visit records (`Visitor` collection) -/

/-- One entry of a Visit Record's `pages` array. -/
structure PageVisit where
  url : String
  title : String
  visitTime : Int
deriving DecidableEq, Repr

/-- A Visit Record, restricted to the fields the claims touch. -/
structure VisitorRec where
  ip : String
  sessionId : String
  firstVisit : Int
  lastVisit : Int
  visitCount : Nat
  pages : List PageVisit
  referrer : String
  userAgent : String
  isBot : Bool
deriving DecidableEq, Repr

/-- The page entry pushed by `trackVisitor`:
`{ url: req.path, title: req.get('X-Page-Title') || req.path, visitTime: now }`. -/
def visitEntry (now : Int) (req : TrackReq) : PageVisit :=
  ⟨req.path, req.xPageTitle.getD req.path, now⟩

/-- Effect of one tracked page view on an existing Visit Record: the
upsert's `$set` fields, then `pages.push`, `visitCount += 1` and the
`lastVisit` touch before `save()`. -/
def applyVisit (now : Int) (req : TrackReq) (v : VisitorRec) : VisitorRec :=
  { v with
    lastVisit := now
    userAgent := req.userAgent
    isBot := false
    pages := v.pages ++ [visitEntry now req]
    visitCount := v.visitCount + 1 }

/-- The record created when no Visit Record matches `(ip, sessionId)`:
`$setOnInsert` gives `firstVisit := now`, `visitCount := 0`, the request
referrer (defaulting to `direct`) and an empty `pages` array, after which
the common push/increment runs. -/
def newVisitorRec (now : Int) (req : TrackReq) (ip sid : String) : VisitorRec :=
  applyVisit now req
    ⟨ip, sid, now, now, 0, [], req.referrer.getD "direct", req.userAgent, false⟩

/-- `Visitor.findOneAndUpdate({ip, sessionId}, ..., {upsert:true})`
followed by the push/increment/save: update the first record keyed by
`(ip, sessionId)`, or append a new one. -/
def upsertVisit (now : Int) (req : TrackReq) (ip sid : String) :
    List VisitorRec → List VisitorRec
  | [] => [newVisitorRec now req ip sid]
  | v :: rest =>
      if v.ip = ip && v.sessionId = sid then applyVisit now req v :: rest
      else v :: upsertVisit now req ip sid rest

/-- `trackVisitor` (part_009 lines 188-275) acting on the Visit Record
collection.  `freshKey` stands for the generated guest session key. -/
def trackVisitor (now : Int) (freshKey : String) (req : TrackReq)
    (store : List VisitorRec) : List VisitorRec :=
  if skipVisitor req.path then store
  else if isBot req.userAgent then store
  else upsertVisit now req req.ip (req.sessionID.getD freshKey) store

/-- First Visit Record keyed by `(ip, sessionId)`. -/
def findVisitor (store : List VisitorRec) (ip sid : String) : Option VisitorRec :=
  store.find? (fun v => v.ip = ip && v.sessionId = sid)

/-- Visit count of the `(ip, sessionId)` record, `0` when absent. -/
def visitCountAt (store : List VisitorRec) (ip sid : String) : Nat :=
  ((findVisitor store ip sid).map VisitorRec.visitCount).getD 0

/-- Pages array of the `(ip, sessionId)` record, `[]` when absent. -/
def pagesAt (store : List VisitorRec) (ip sid : String) : List PageVisit :=
  ((findVisitor store ip sid).map VisitorRec.pages).getD []

/-- `lastVisit` of the `(ip, sessionId)` record, when present. -/
def lastVisitAt (store : List VisitorRec) (ip sid : String) : Option Int :=
  (findVisitor store ip sid).map VisitorRec.lastVisit

/-! ## Aggregate analytics queries (`controllers/analyticsController.js`) -/

/-- Milliseconds in one day. -/
def dayMs : Int := 86400000

/-- Calendar-day bucket of a millisecond timestamp (UTC day index); the
`$year/$month/$dayOfMonth` group key of the aggregations determines and is
determined by this floor quotient. -/
def dayOf (t : Int) : Int := Int.fdiv t dayMs

/-- `getWeeklyStats` (analyticsController.js lines 233-280), projected to
the `pageViews` value of the day-`d` bucket: the pipeline matches Visit
Records on `lastVisit ∈ [startD, endD]`, groups them by the calendar day
of `lastVisit`, and sums each whole `pages` array size into its group. -/
def weeklyPageViews (startD endD : Int) (store : List VisitorRec) (d : Int) : Nat :=
  ((store.filter (fun v =>
      startD ≤ v.lastVisit && v.lastVisit ≤ endD && dayOf v.lastVisit = d)).map
    (fun v => v.pages.length)).sum

/-- `getWeeklyStats` projected to the `visitors` value of the day-`d`
bucket: the number of Visit Records grouped under that `lastVisit` day. -/
def weeklyVisitors (startD endD : Int) (store : List VisitorRec) (d : Int) : Nat :=
  (store.filter (fun v =>
      startD ≤ v.lastVisit && v.lastVisit ≤ endD && dayOf v.lastVisit = d)).length

/-- `getMonthlyStats` (lines 285-338), projected to the `pageViews` value
of the day-`d` bucket; identical bucketing to the weekly pipeline. -/
def monthlyPageViews (startD endD : Int) (store : List VisitorRec) (d : Int) : Nat :=
  weeklyPageViews startD endD store d

/-- `getPopularPages` (lines 343-393), projected to the `views` value of
the bucket for `url`: match Visit Records on `lastVisit ≥ startD`, unwind
`pages`, keep entries with `visitTime ≥ startD`, group by entry url and
count entries. -/
def popularPagesViews (startD : Int) (store : List VisitorRec) (url : String) : Nat :=
  (((store.filter (fun v => startD ≤ v.lastVisit)).flatMap
      (fun v => v.pages)).filter
    (fun p => startD ≤ p.visitTime && p.url = url)).length

/-! ## Spec-side definitions

The following definitions follow the specification's words (spec.md §4.3,
§4.6) rather than the source; they exist only to be compared with the
source-translated definitions above. -/

/-- Spec-side failure taxonomy of the strict authentication middleware
(spec.md §4.3): the machine-readable reason code each failure case must
carry, `none` when authentication succeeds.  Written from the spec's state
machine: no credential → `NO_TOKEN`; invalid credential → `TOKEN_EXPIRED`
or `TOKEN_MALFORMED`; unrecognized principal kind → `INVALID_USER_TYPE`;
missing principal → `USER_NOT_FOUND`; inactive → `ACCOUNT_DEACTIVATED`. -/
def specFailureCode (db : DB) (env : String → Token) (now : Int)
    (req : Request) : Option String :=
  match extractToken req with
  | none => some "NO_TOKEN"
  | some ts =>
      match jwtVerify now (env ts) with
      | .error .expired => some "TOKEN_EXPIRED"
      | .error .unparseable => some "TOKEN_MALFORMED"
      | .error .badSignature => some "TOKEN_MALFORMED"
      | .ok decoded =>
          if decoded.userType = "student" then
            match db.findStudent decoded.id with
            | none => some "USER_NOT_FOUND"
            | some s => if s.isActive then none else some "ACCOUNT_DEACTIVATED"
          else if decoded.userType = "teacher" || decoded.userType = "admin" then
            match db.findUser decoded.id with
            | none => some "USER_NOT_FOUND"
            | some u => if u.isActive then none else some "ACCOUNT_DEACTIVATED"
          else some "INVALID_USER_TYPE"

/-- Spec-side daily page-view total (spec.md §4.6, the claimed bucketing):
count the individual page-visit entries of the window's Visit Records by
the calendar day of the entry's own timestamp. -/
def specDailyPageViewsByEntry (startD endD : Int) (store : List VisitorRec)
    (d : Int) : Nat :=
  ((store.flatMap (fun v => v.pages)).filter
    (fun p => startD ≤ p.visitTime && p.visitTime ≤ endD && dayOf p.visitTime = d)).length

/-- Spec-side restatement of the weekly/monthly bucketing the code
actually performs: every Visit Record whose `lastVisit` lies in the window
on day `d` contributes its entire `pages` count to day `d`. -/
def specLastVisitDayPageViews (startD endD : Int) (store : List VisitorRec)
    (d : Int) : Nat :=
  store.foldr
    (fun v acc =>
      if (startD ≤ v.lastVisit && v.lastVisit ≤ endD && dayOf v.lastVisit = d : Bool) then
        v.pages.length + acc
      else acc) 0

/-- Spec-side restatement of the top-pages counting: within parents whose
`lastVisit` lies in the window, each page-visit entry is counted by its
own timestamp. -/
def specPopularViewsByEntry (startD : Int) (store : List VisitorRec)
    (url : String) : Nat :=
  store.foldr
    (fun v acc =>
      if (startD ≤ v.lastVisit : Bool) then
        (v.pages.filter (fun p => startD ≤ p.visitTime && p.url = url)).length + acc
      else acc) 0

/-! ## Helper lemmas -/

theorem splitSpaceAux_no_space (l : List Char) (acc : List Char)
    (h : ∀ c ∈ l, c ≠ ' ') : splitSpaceAux l acc = [acc.reverse ++ l] := by
  induction l generalizing acc with
  | nil => simp [splitSpaceAux]
  | cons c rest ih =>
      have hc : c ≠ ' ' := h c (by simp)
      simp only [splitSpaceAux, if_neg hc]
      rw [ih _ (fun x hx => h x (by simp [hx]))]
      simp

theorem splitSpaceAux_cons_ne (c : Char) (l acc : List Char) (h : c ≠ ' ') :
    splitSpaceAux (c :: l) acc = splitSpaceAux l (c :: acc) := by
  simp [splitSpaceAux, h]

theorem splitSpaceAux_cons_space (l acc : List Char) :
    splitSpaceAux (' ' :: l) acc = acc.reverse :: splitSpaceAux l [] := by
  simp [splitSpaceAux]

theorem jsSplitSpace_bearer (t : String) (h : ∀ c ∈ t.data, c ≠ ' ') :
    jsSplitSpace ("Bearer " ++ t) = ["Bearer", t] := by
  have hdata : ("Bearer " ++ t).data
      = 'B' :: 'e' :: 'a' :: 'r' :: 'e' :: 'r' :: ' ' :: t.data := by
    rw [String.data_append]; rfl
  unfold jsSplitSpace
  rw [hdata, splitSpaceAux_cons_ne _ _ _ (by decide),
    splitSpaceAux_cons_ne _ _ _ (by decide),
    splitSpaceAux_cons_ne _ _ _ (by decide),
    splitSpaceAux_cons_ne _ _ _ (by decide),
    splitSpaceAux_cons_ne _ _ _ (by decide),
    splitSpaceAux_cons_ne _ _ _ (by decide),
    splitSpaceAux_cons_space,
    splitSpaceAux_no_space t.data [] h]
  rfl

theorem jsStartsWith_bearer (t : String) :
    jsStartsWith ("Bearer " ++ t) "Bearer" = true := by
  have hdata : ("Bearer " ++ t).data
      = 'B' :: 'e' :: 'a' :: 'r' :: 'e' :: 'r' :: ' ' :: t.data := by
    rw [String.data_append]; rfl
  simp [jsStartsWith, hdata, List.isPrefixOf]

theorem mem_infix_joinVeya (r : String) (l : List String) (h : r ∈ l) :
    r.data <:+: (joinVeya l).data := by
  induction l with
  | nil => cases h
  | cons x xs ih =>
      cases h with
      | head =>
          cases xs with
          | nil => exact List.infix_refl _
          | cons y ys =>
              simp only [joinVeya, String.data_append]
              exact ⟨[], " veya ".data ++ (joinVeya (y :: ys)).data, by simp⟩
      | tail _ hmem =>
          have hx := ih hmem
          cases xs with
          | nil => cases hmem
          | cons y ys =>
              simp only [joinVeya, String.data_append]
              exact hx.trans ⟨x.data ++ " veya ".data, [], by simp⟩

theorem findOnline_upsertOnline_self (now : Int) (req : TrackReq) (sid : String)
    (store : List OnlineRec) :
    findOnline (upsertOnline now req sid store) sid
      = some ((findOnline store sid).elim (insertOnline now req sid)
          (refreshOnline now req)) := by
  induction store with
  | nil => simp [findOnline, upsertOnline, insertOnline, refreshOnline]
  | cons r rest ih =>
      by_cases hr : r.sessionId = sid
      · simp [findOnline, upsertOnline, hr, refreshOnline]
      · simp only [upsertOnline, if_neg hr]
        simpa [findOnline, List.find?, hr] using ih

theorem findOnline_upsertOnline_other (now : Int) (req : TrackReq)
    (sid sid' : String) (store : List OnlineRec) (h : sid ≠ sid') :
    findOnline (upsertOnline now req sid' store) sid = findOnline store sid := by
  induction store with
  | nil =>
      simp [findOnline, upsertOnline, insertOnline, refreshOnline, Ne.symm h]
  | cons r rest ih =>
      have h' : sid' ≠ sid := Ne.symm h
      by_cases hr : r.sessionId = sid'
      · have hrs : r.sessionId ≠ sid := by rw [hr]; exact h'
        simp [findOnline, upsertOnline, hr, refreshOnline, hrs, List.find?, h']
      · by_cases hs : r.sessionId = sid
        · simp [findOnline, upsertOnline, hr, hs, List.find?, h]
        · simp only [upsertOnline, if_neg hr]
          simpa [findOnline, List.find?, hs] using ih

theorem getOnlineCount_upsert_stale (now : Int) (req : TrackReq) (sid : String)
    (store : List OnlineRec) (r : OnlineRec)
    (hfind : findOnline store sid = some r)
    (hstale : onlineWindowMs < now - r.lastActivity) :
    getOnlineCount now (upsertOnline now req sid store)
      = getOnlineCount now store + 1 := by
  induction store with
  | nil => simp [findOnline] at hfind
  | cons x rest ih =>
      by_cases hx : x.sessionId = sid
      · have hxr : x = r := by
          have := hfind
          simp [findOnline, List.find?, hx] at this
          exact this
        subst hxr
        have hw : (0 : Int) < onlineWindowMs := by decide
        have hin2 : now ≤ (refreshOnline now req x).lastActivity + onlineWindowMs := by
          show now ≤ now + onlineWindowMs
          omega
        have hout2 : ¬ now ≤ x.lastActivity + onlineWindowMs := by omega
        simp [upsertOnline, hx, getOnlineCount, List.filter_cons, hin2, hout2]
      · have hfind' : findOnline rest sid = some r := by
          simpa [findOnline, List.find?, hx] using hfind
        have := ih hfind'
        by_cases hxin : now - onlineWindowMs ≤ x.lastActivity
        · simp only [upsertOnline, if_neg hx]
          simp [getOnlineCount, List.filter, hxin] at this ⊢
          omega
        · simp only [upsertOnline, if_neg hx]
          simp [getOnlineCount, List.filter, hxin] at this ⊢
          omega

theorem findVisitor_upsertVisit_self (now : Int) (req : TrackReq)
    (ip sid : String) (store : List VisitorRec) :
    findVisitor (upsertVisit now req ip sid store) ip sid
      = some ((findVisitor store ip sid).elim (newVisitorRec now req ip sid)
          (applyVisit now req)) := by
  induction store with
  | nil => simp [findVisitor, upsertVisit, newVisitorRec, applyVisit]
  | cons v rest ih =>
      by_cases hv : v.ip = ip ∧ v.sessionId = sid
      · simp [findVisitor, upsertVisit, hv.1, hv.2, applyVisit]
      · have hb : (v.ip = ip && v.sessionId = sid) = false := by
          rcases Decidable.not_and_iff_or_not.mp hv with h1 | h1 <;>
            simp [h1]
        simp only [upsertVisit, hb, Bool.false_eq_true, if_false]
        simpa [findVisitor, List.find?, hb] using ih

theorem findVisitor_upsertVisit_other (now : Int) (req : TrackReq)
    (ip sid sid' : String) (store : List VisitorRec) (h : sid ≠ sid') :
    findVisitor (upsertVisit now req ip sid' store) ip sid
      = findVisitor store ip sid := by
  induction store with
  | nil => simp [findVisitor, upsertVisit, newVisitorRec, applyVisit, Ne.symm h]
  | cons v rest ih =>
      have h' : sid' ≠ sid := Ne.symm h
      by_cases hv : v.ip = ip ∧ v.sessionId = sid'
      · have hvs : v.sessionId ≠ sid := by rw [hv.2]; exact h'
        simp [findVisitor, upsertVisit, hv.1, hv.2, applyVisit, hvs,
          List.find?, h']
      · have hb : (v.ip = ip && v.sessionId = sid') = false := by
          rcases Decidable.not_and_iff_or_not.mp hv with h1 | h1 <;>
            simp [h1]
        by_cases hs : v.ip = ip ∧ v.sessionId = sid
        · simp [findVisitor, upsertVisit, hb, List.find?, hs.1, hs.2, h]
        · have hb2 : (v.ip = ip && v.sessionId = sid) = false := by
            rcases Decidable.not_and_iff_or_not.mp hs with h1 | h1 <;>
              simp [h1]
          simp only [upsertVisit, hb, Bool.false_eq_true, if_false]
          simpa [findVisitor, List.find?, hb2] using ih

theorem weeklyPageViews_eq_specLastVisitDay (startD endD d : Int)
    (store : List VisitorRec) :
    weeklyPageViews startD endD store d
      = specLastVisitDayPageViews startD endD store d := by
  unfold weeklyPageViews specLastVisitDayPageViews
  induction store with
  | nil => rfl
  | cons v rest ih =>
      cases hc : (startD ≤ v.lastVisit && v.lastVisit ≤ endD
          && dayOf v.lastVisit = d : Bool) <;>
      · simp only [List.filter_cons, List.foldr_cons]
        rw [hc]
        simp [ih]

theorem popularPagesViews_eq_specPopular (startD : Int) (url : String)
    (store : List VisitorRec) :
    popularPagesViews startD store url = specPopularViewsByEntry startD store url := by
  unfold popularPagesViews specPopularViewsByEntry
  induction store with
  | nil => rfl
  | cons v rest ih =>
      by_cases hc : startD ≤ v.lastVisit
      · simp [List.filter_cons, hc, List.filter_append, ih]
      · simp [List.filter_cons, hc, ih]

/-! ## Claim theorems -/

/-- C8: a request whose user-agent matches the crawler-signature list is
never recorded: both `trackOnlineUser` and `trackVisitor` leave their
stores untouched, whatever the stores contain. -/
theorem bot_requests_never_recorded (now : Int) (freshKey : String)
    (req : TrackReq) (ostore : List OnlineRec) (vstore : List VisitorRec)
    (hbot : isBot req.userAgent = true) :
    trackOnlineUser now freshKey req ostore = ostore ∧
      trackVisitor now freshKey req vstore = vstore := by
  refine ⟨?_, ?_⟩ <;> simp [trackOnlineUser, trackVisitor, hbot]

/-- C8 witness: a concrete Googlebot request leaves both stores
unchanged. -/
theorem bot_requests_never_recorded_witness :
    isBot "Mozilla/5.0 (compatible; Googlebot/2.1)" = true ∧
      trackOnlineUser 0 "g"
        ⟨"/", "1.1.1.1", "Mozilla/5.0 (compatible; Googlebot/2.1)",
          none, none, none, none, none, none⟩ [] = [] ∧
      trackVisitor 0 "g"
        ⟨"/", "1.1.1.1", "Mozilla/5.0 (compatible; Googlebot/2.1)",
          none, none, none, none, none, none⟩ [] = [] :=
  ⟨by decide,
    (bot_requests_never_recorded 0 "g" _ [] [] (by decide)).1,
    (bot_requests_never_recorded 0 "g" _ [] [] (by decide)).2⟩

/-- C5 counterexample: the Token Service's `verifyToken` collapses
distinct invalid causes.  An expired token and a token with an
unparseable payload fail `jwt.verify` for different reasons, yet
`jwtHelper.verifyToken` returns the same `null` for both, so the causes
are not distinguishable to its caller. -/
theorem tokenService_verify_collapses_invalid_causes :
    jwtVerify 1000 ⟨⟨"u1", "teacher"⟩, true, true, 500⟩ = .error .expired ∧
      jwtVerify 1000 ⟨⟨"u1", "teacher"⟩, false, true, 2000⟩ = .error .unparseable ∧
      jwtHelperVerifyToken 1000 ⟨⟨"u1", "teacher"⟩, true, true, 500⟩
        = jwtHelperVerifyToken 1000 ⟨⟨"u1", "teacher"⟩, false, true, 2000⟩ :=
  ⟨rfl, rfl, rfl⟩

/-- C5 amended: `verifyToken` returns the decoded claims exactly for a
valid token and `null` for every invalid one, collapsing the causes; the
causes are told apart only by the HTTP middleware's error mapping, which
sends an expired token to `TOKEN_EXPIRED` and the two `JsonWebTokenError`
causes both to `TOKEN_MALFORMED`. -/
theorem tokenService_verify_ok_iff_valid (now : Int) (t : Token) :
    (∀ c, jwtHelperVerifyToken now t = some c ↔ jwtVerify now t = .ok c) ∧
      (jwtHelperVerifyToken now t = none ↔ ∃ e, jwtVerify now t = .error e) ∧
      jwtErrCode .expired = "TOKEN_EXPIRED" ∧
      jwtErrCode .unparseable = "TOKEN_MALFORMED" ∧
      jwtErrCode .badSignature = "TOKEN_MALFORMED" := by
  refine ⟨?_, ?_, rfl, rfl, rfl⟩
  · intro c
    unfold jwtHelperVerifyToken
    cases h : jwtVerify now t <;> simp
  · unfold jwtHelperVerifyToken
    cases h : jwtVerify now t <;> simp

/-- C1 counterexample: the `protect` middleware (one of the two strict
authentication middlewares, guarding `/api/auth/me` among others) answers
a credential-less request with a 401 whose body has no `code` field at
all, so the middleware's failures do not carry the machine-readable
codes the claim requires. -/
theorem protect_rejection_lacks_code :
    protect ⟨[], []⟩ (fun _ => ⟨⟨"", ""⟩, false, false, 0⟩) 0 ⟨none, none⟩
      = .err ⟨401, false, "Erişim reddedildi. Lütfen giriş yapın.", none⟩ := by
  decide

/-- C3 counterexample: the `authorize` role gate (guarding the
`students.js` and `studentAuth.js` routes) denies a teacher calling an
admin-only route with 403 but with a fixed message and no
`INSUFFICIENT_PERMISSION` code, and the message names no roles. -/
theorem authorize_denial_lacks_permission_code :
    authorize ["admin"] (some ⟨"t1", true, "teacher"⟩)
        = some ⟨403, false, "Bu işlem için yetkiniz yok", none⟩ ∧
      (⟨403, false, "Bu işlem için yetkiniz yok", none⟩ : ErrorResponse).code
        ≠ some "INSUFFICIENT_PERMISSION" := by
  decide

/-- C3 amended: the `authorizeRoles` gate denies a wrong-role principal
with exactly HTTP 403 (never 401, never a pass-through) and the
`INSUFFICIENT_PERMISSION` code, and its message names every required
role and the caller's actual role; the parallel `authorize` gate also
answers 403 and never passes a wrong-role principal through, but with a
generic body carrying no code and no role names. -/
theorem authorizeRoles_denies_403_naming_roles (allowed : List String)
    (u : AuthedUser) (h : allowed.contains u.userType = false) :
    authorizeRoles allowed (some u)
        = some ⟨403, false, roleDenialMsg allowed u.userType,
            some "INSUFFICIENT_PERMISSION"⟩ ∧
      (∀ r ∈ allowed, r.data <:+: (roleDenialMsg allowed u.userType).data) ∧
      u.userType.data <:+: (roleDenialMsg allowed u.userType).data ∧
      authorize allowed (some u)
        = some ⟨403, false, "Bu işlem için yetkiniz yok", none⟩ := by
  have hmem : u.userType ∉ allowed := by simpa using h
  refine ⟨?_, ?_, ?_, ?_⟩
  · simp [authorizeRoles, h, hmem]
  · intro r hr
    have hinf := mem_infix_joinVeya r allowed hr
    simp only [roleDenialMsg, String.data_append]
    exact hinf.trans
      ⟨"Bu işlem için ".data,
        " yetkisi gereklidir. Mevcut yetki: ".data ++ u.userType.data, by simp⟩
  · simp only [roleDenialMsg, String.data_append]
    exact ⟨("Bu işlem için ".data ++ (joinVeya allowed).data)
        ++ " yetkisi gereklidir. Mevcut yetki: ".data, [], by simp⟩
  · simp [authorize, h, hmem]

/-- C3 witness: a student denied on a teacher/admin route receives the
403 body with the `INSUFFICIENT_PERMISSION` code. -/
theorem authorizeRoles_denies_403_naming_roles_witness :
    authorizeRoles ["teacher", "admin"] (some ⟨"s1", true, "student"⟩)
      = some ⟨403, false, roleDenialMsg ["teacher", "admin"] "student",
          some "INSUFFICIENT_PERMISSION"⟩ :=
  (authorizeRoles_denies_403_naming_roles ["teacher", "admin"]
    ⟨"s1", true, "student"⟩ (by decide)).1

/-- C4: credential extraction prefers a `Bearer` authorization header
over the token cookie, falls back to the cookie exactly when no `Bearer`
header is present, and treats the absence of both as "no credential",
which the strict middleware turns into 401 `NO_TOKEN` while the public
`/api/auth/check` route answers 200 with `authenticated:false`. -/
theorem credential_extraction_header_then_cookie :
    (∀ (t : String) (c : Option String), (∀ ch ∈ t.data, ch ≠ ' ') →
        extractToken ⟨some ("Bearer " ++ t), c⟩ = some t) ∧
      (∀ (h : String) (c c' : Option String), jsStartsWith h "Bearer" = true →
        extractToken ⟨some h, c⟩ = extractToken ⟨some h, c'⟩) ∧
      (∀ (h : String) (c : Option String), jsStartsWith h "Bearer" = false →
        extractToken ⟨some h, c⟩ = c) ∧
      (∀ c : Option String, extractToken ⟨none, c⟩ = c) ∧
      (∀ (db : DB) (env : String → Token) (now : Int),
        verifyTokenMW db env now ⟨none, none⟩
            = .err ⟨401, false, "Erişim reddedildi. Lütfen giriş yapınız.",
                some "NO_TOKEN"⟩ ∧
          authCheck db env now ⟨none, none⟩ = (200, false)) := by
  refine ⟨?_, ?_, ?_, fun c => rfl, fun db env now => ⟨rfl, rfl⟩⟩
  · intro t c hns
    simp [extractToken, jsStartsWith_bearer, jsSplitSpace_bearer t hns]
  · intro h c c' hb
    simp [extractToken, hb]
  · intro h c hb
    simp [extractToken, hb]

/-- C4 witness: with both a `Bearer` header and a cookie present the
header token wins; with a non-Bearer header the cookie is used. -/
theorem credential_extraction_header_then_cookie_witness :
    extractToken ⟨some ("Bearer " ++ "abc"), some "cookietok"⟩ = some "abc" ∧
      extractToken ⟨some "Basic zz", some "cookietok"⟩ = some "cookietok" :=
  ⟨credential_extraction_header_then_cookie.1 "abc" (some "cookietok") (by decide),
    credential_extraction_header_then_cookie.2.2.1 "Basic zz" (some "cookietok")
      (by decide)⟩

/-- C1 amended: the `verifyToken` strict middleware answers every
authentication failure with HTTP 401, `success:false`, and exactly the
machine-readable code of the spec's failure taxonomy — `NO_TOKEN`,
`TOKEN_EXPIRED`, `TOKEN_MALFORMED`, `USER_NOT_FOUND`,
`ACCOUNT_DEACTIVATED` or `INVALID_USER_TYPE` — while on success the
taxonomy assigns no code; the parallel `protect` middleware (see the
counterexample) carries no codes. -/
theorem verifyToken_rejections_carry_case_code (db : DB)
    (env : String → Token) (now : Int) (req : Request) :
    match verifyTokenMW db env now req with
    | .err r => r.status = 401 ∧ r.success = false ∧
        r.code = specFailureCode db env now req ∧
        (specFailureCode db env now req).isSome = true
    | .ok _ => specFailureCode db env now req = none := by
  unfold verifyTokenMW specFailureCode
  cases hx : extractToken req with
  | none => simp
  | some ts =>
      cases hv : jwtVerify now (env ts) with
      | error e => cases e <;> simp [hv, jwtErrCode, jwtErrMessage]
      | ok d =>
          by_cases hstu : d.userType = "student"
          · cases hfs : db.findStudent d.id with
            | none => simp [hv, hstu, hfs]
            | some s => cases hact : s.isActive <;> simp [hv, hstu, hfs, hact]
          · by_cases h1 : d.userType = "teacher"
            · cases hfu : db.findUser d.id with
              | none => simp [hv, hstu, h1, hfu]
              | some u =>
                  cases hact : u.isActive <;> simp [hv, hstu, h1, hfu, hact]
            · by_cases h2 : d.userType = "admin"
              · cases hfu : db.findUser d.id with
                | none => simp [hv, hstu, h1, h2, hfu]
                | some u =>
                    cases hact : u.isActive <;> simp [hv, hstu, h1, h2, hfu, hact]
              · simp [hv, hstu, h1, h2]

/-- C2: a deactivated principal never receives a new session and loses
the one it has: both login flows reject an inactive principal before the
password is even consulted and issue no token, and the `verifyToken`
middleware rejects a valid, unexpired token for a principal whose live
`active` flag is false with 401 `ACCOUNT_DEACTIVATED`, for the staff and
the student branch alike. -/
theorem deactivated_principals_rejected :
    (∀ (db : DB) (email pw : String) (u : StaffRec),
        db.users.find? (fun x => x.email = email) = some u →
        u.isActive = false →
        login db email pw = .rejected 401 "Hesabınız deaktif durumda") ∧
      (∀ (db : DB) (num pw : String) (s : StudentRec),
        db.students.find? (fun x => x.studentNumber = num) = some s →
        s.isActive = false →
        studentLogin db num pw = .rejected 401 "Hesabınız deaktif durumda") ∧
      (∀ (db : DB) (env : String → Token) (now : Int) (req : Request)
          (ts : String) (c : Claims) (u : StaffRec),
        extractToken req = some ts → jwtVerify now (env ts) = .ok c →
        (c.userType = "teacher" ∨ c.userType = "admin") →
        db.findUser c.id = some u → u.isActive = false →
        verifyTokenMW db env now req
          = .err ⟨401, false, "Hesabınız deaktif durumda",
              some "ACCOUNT_DEACTIVATED"⟩) ∧
      (∀ (db : DB) (env : String → Token) (now : Int) (req : Request)
          (ts : String) (c : Claims) (s : StudentRec),
        extractToken req = some ts → jwtVerify now (env ts) = .ok c →
        c.userType = "student" →
        db.findStudent c.id = some s → s.isActive = false →
        verifyTokenMW db env now req
          = .err ⟨401, false, "Hesabınız deaktif durumda",
              some "ACCOUNT_DEACTIVATED"⟩) := by
  refine ⟨?_, ?_, ?_, ?_⟩
  · intro db email pw u hfind hact
    unfold login
    rw [hfind]
    simp [hact]
  · intro db num pw s hfind hact
    unfold studentLogin
    rw [hfind]
    simp [hact]
  · intro db env now req ts c u hx hv hut hfind hact
    simp only [verifyTokenMW, hx]
    rcases hut with h | h <;> simp [hv, h, hfind, hact]
  · intro db env now req ts c s hx hv hut hfind hact
    simp only [verifyTokenMW, hx]
    simp [hv, hut, hfind, hact]

/-- C2 witness: a deactivated teacher is rejected by the login flow, a
deactivated student by the student login flow, and a valid unexpired
token for the deactivated teacher is rejected with
`ACCOUNT_DEACTIVATED`. -/
theorem deactivated_principals_rejected_witness :
    login ⟨[⟨"u1", "t@x.com", "pw", "teacher", false⟩], []⟩ "t@x.com" "pw"
        = .rejected 401 "Hesabınız deaktif durumda" ∧
      studentLogin ⟨[], [⟨"s1", "100", "pw", false⟩]⟩ "100" "pw"
        = .rejected 401 "Hesabınız deaktif durumda" ∧
      verifyTokenMW ⟨[⟨"u1", "t@x.com", "pw", "teacher", false⟩], []⟩
          (fun _ => ⟨⟨"u1", "teacher"⟩, true, true, 100⟩) 0
          ⟨some "Bearer tok", none⟩
        = .err ⟨401, false, "Hesabınız deaktif durumda",
            some "ACCOUNT_DEACTIVATED"⟩ :=
  ⟨deactivated_principals_rejected.1
      ⟨[⟨"u1", "t@x.com", "pw", "teacher", false⟩], []⟩ "t@x.com" "pw"
      ⟨"u1", "t@x.com", "pw", "teacher", false⟩ (by decide) rfl,
    deactivated_principals_rejected.2.1
      ⟨[], [⟨"s1", "100", "pw", false⟩]⟩ "100" "pw"
      ⟨"s1", "100", "pw", false⟩ (by decide) rfl,
    deactivated_principals_rejected.2.2.1
      ⟨[⟨"u1", "t@x.com", "pw", "teacher", false⟩], []⟩
      (fun _ => ⟨⟨"u1", "teacher"⟩, true, true, 100⟩) 0
      ⟨some "Bearer tok", none⟩ "tok" ⟨"u1", "teacher"⟩
      ⟨"u1", "t@x.com", "pw", "teacher", false⟩
      (by decide) rfl (Or.inl rfl) (by decide) rfl⟩

/-- C6: `getOnlineCount` counts exactly the presence records whose
last-activity age is at most 30 minutes; a session idle for longer is
excluded, and one further tracked request with the same session
identifier re-upserts its record with `lastActivity := now`, putting it
back in the count (the count grows by exactly one). -/
theorem onlineCount_trailing_window_and_reupsert :
    (∀ (now : Int) (store : List OnlineRec),
        getOnlineCount now store
          = (store.filter (fun r => now - r.lastActivity ≤ onlineWindowMs)).length) ∧
      (∀ (now : Int) (freshKey : String) (req : TrackReq)
          (store : List OnlineRec) (sid : String) (r : OnlineRec),
        findOnline store sid = some r →
        onlineWindowMs < now - r.lastActivity →
        skipOnline req.path = false → isBot req.userAgent = false →
        req.sessionID = some sid →
        getOnlineCount now (trackOnlineUser now freshKey req store)
            = getOnlineCount now store + 1 ∧
          findOnline (trackOnlineUser now freshKey req store) sid
            = some (refreshOnline now req r) ∧
          (refreshOnline now req r).lastActivity = now) := by
  constructor
  · intro now store
    unfold getOnlineCount
    congr 1
    apply List.filter_congr
    intro r _
    simp only [decide_eq_decide]
    omega
  · intro now freshKey req store sid r hfind hstale hskip hbot hsid
    have htrack : trackOnlineUser now freshKey req store
        = upsertOnline now req sid store := by
      simp [trackOnlineUser, hskip, hbot, hsid]
    rw [htrack]
    refine ⟨getOnlineCount_upsert_stale now req sid store r hfind hstale, ?_, rfl⟩
    rw [findOnline_upsertOnline_self]
    simp [hfind]

/-- C6 witness: a record idle for 2,000,000 ms is outside the window; one
tracked request with its session id raises the count by one. -/
theorem onlineCount_trailing_window_and_reupsert_witness :
    getOnlineCount 2000000
        (trackOnlineUser 2000000 "g"
          ⟨"/page", "1.2.3.4", "Mozilla", some "s1", none, none, none, none, none⟩
          [⟨"s1", "1.2.3.4", "Mozilla", false, "guest", "/", 0, 0⟩])
      = getOnlineCount 2000000
          [⟨"s1", "1.2.3.4", "Mozilla", false, "guest", "/", 0, 0⟩] + 1 :=
  (onlineCount_trailing_window_and_reupsert.2 2000000 "g"
    ⟨"/page", "1.2.3.4", "Mozilla", some "s1", none, none, none, none, none⟩
    [⟨"s1", "1.2.3.4", "Mozilla", false, "guest", "/", 0, 0⟩] "s1"
    ⟨"s1", "1.2.3.4", "Mozilla", false, "guest", "/", 0, 0⟩
    (by decide) (by decide) (by decide) (by decide) rfl).1

/-- C7 counterexample: a Visit Record whose `lastVisit` is on day 1 but
whose single page entry occurred on day 0 shows that the weekly pipeline
buckets by the parent's `lastVisit`: it reports 0 page views for day 0
inside the window, while bucketing by the entries' own timestamps (as
the claim states) yields 1. -/
theorem weekly_totals_bucket_by_lastVisit :
    weeklyPageViews 0 604800000
        [⟨"1.2.3.4", "s1", 0, 86400000, 1, [⟨"/a", "A", 0⟩], "direct", "ua", false⟩] 0
      = 0 ∧
    specDailyPageViewsByEntry 0 604800000
        [⟨"1.2.3.4", "s1", 0, 86400000, 1, [⟨"/a", "A", 0⟩], "direct", "ua", false⟩] 0
      = 1 ∧
    weeklyPageViews 0 604800000
        [⟨"1.2.3.4", "s1", 0, 86400000, 1, [⟨"/a", "A", 0⟩], "direct", "ua", false⟩] 0
      ≠ specDailyPageViewsByEntry 0 604800000
          [⟨"1.2.3.4", "s1", 0, 86400000, 1, [⟨"/a", "A", 0⟩], "direct", "ua", false⟩] 0 := by
  refine ⟨by decide, by decide, by decide⟩

/-- C7 amended: the two top-pages projections count individual page
entries by the entries' own `visitTime` (within a parent `lastVisit`
prefilter), while the weekly and the identical monthly totals bucket
whole Visit Records by the calendar day of the parent's `lastVisit`,
attributing the record's entire `pages` count to that day. -/
theorem aggregate_day_bucketing_characterization :
    (∀ (startD endD d : Int) (store : List VisitorRec),
        weeklyPageViews startD endD store d
          = specLastVisitDayPageViews startD endD store d) ∧
      (∀ (startD endD d : Int) (store : List VisitorRec),
        monthlyPageViews startD endD store d
          = specLastVisitDayPageViews startD endD store d) ∧
      (∀ (startD : Int) (url : String) (store : List VisitorRec),
        popularPagesViews startD store url
          = specPopularViewsByEntry startD store url) :=
  ⟨fun startD endD d store => weeklyPageViews_eq_specLastVisitDay startD endD d store,
    fun startD endD d store => weeklyPageViews_eq_specLastVisitDay startD endD d store,
    fun startD url store => popularPagesViews_eq_specPopular startD url store⟩

/-- C9: two consecutive tracked page views from the same (IP, session)
pair raise the Visit Record's count by exactly 2, append exactly the two
page entries in order, and leave `lastVisit` at the second request's
time; no update is lost. -/
theorem consecutive_visits_append_and_count (now1 now2 : Int)
    (k1 k2 ip sid : String) (req1 req2 : TrackReq) (store : List VisitorRec)
    (hs1 : skipVisitor req1.path = false) (hb1 : isBot req1.userAgent = false)
    (hs2 : skipVisitor req2.path = false) (hb2 : isBot req2.userAgent = false)
    (hip1 : req1.ip = ip) (hip2 : req2.ip = ip)
    (hsid1 : req1.sessionID = some sid) (hsid2 : req2.sessionID = some sid) :
    visitCountAt (trackVisitor now2 k2 req2 (trackVisitor now1 k1 req1 store)) ip sid
        = visitCountAt store ip sid + 2 ∧
      pagesAt (trackVisitor now2 k2 req2 (trackVisitor now1 k1 req1 store)) ip sid
        = pagesAt store ip sid ++ [visitEntry now1 req1, visitEntry now2 req2] ∧
      lastVisitAt (trackVisitor now2 k2 req2 (trackVisitor now1 k1 req1 store)) ip sid
        = some now2 := by
  have e1 : trackVisitor now1 k1 req1 store = upsertVisit now1 req1 ip sid store := by
    simp [trackVisitor, hs1, hb1, hsid1, hip1]
  have e2 : trackVisitor now2 k2 req2 (upsertVisit now1 req1 ip sid store)
      = upsertVisit now2 req2 ip sid (upsertVisit now1 req1 ip sid store) := by
    simp [trackVisitor, hs2, hb2, hsid2, hip2]
  rw [e1, e2]
  cases hf : findVisitor store ip sid with
  | none =>
      have f1 := findVisitor_upsertVisit_self now1 req1 ip sid store
      rw [hf] at f1
      simp only [Option.elim] at f1
      have f2 := findVisitor_upsertVisit_self now2 req2 ip sid
        (upsertVisit now1 req1 ip sid store)
      rw [f1] at f2
      simp only [Option.elim] at f2
      unfold visitCountAt pagesAt lastVisitAt
      rw [f2, hf]
      simp [applyVisit, newVisitorRec]
  | some v =>
      have f1 := findVisitor_upsertVisit_self now1 req1 ip sid store
      rw [hf] at f1
      simp only [Option.elim] at f1
      have f2 := findVisitor_upsertVisit_self now2 req2 ip sid
        (upsertVisit now1 req1 ip sid store)
      rw [f1] at f2
      simp only [Option.elim] at f2
      unfold visitCountAt pagesAt lastVisitAt
      rw [f2, hf]
      simp [applyVisit]

/-- C9 witness: two tracked page views with session `sess` against an
empty store leave one record with count 2 and the two entries. -/
theorem consecutive_visits_append_and_count_witness :
    visitCountAt
        (trackVisitor 9 "k2"
          ⟨"/home", "9.9.9.9", "Mozilla", some "sess", none, none, none, none, none⟩
          (trackVisitor 5 "k1"
            ⟨"/home", "9.9.9.9", "Mozilla", some "sess", none, none, none, none, none⟩
            []))
        "9.9.9.9" "sess"
      = visitCountAt ([] : List VisitorRec) "9.9.9.9" "sess" + 2 :=
  (consecutive_visits_append_and_count 5 9 "k1" "k2" "9.9.9.9" "sess"
    ⟨"/home", "9.9.9.9", "Mozilla", some "sess", none, none, none, none, none⟩
    ⟨"/home", "9.9.9.9", "Mozilla", some "sess", none, none, none, none, none⟩
    [] (by decide) (by decide) (by decide) (by decide) rfl rfl rfl rfl).1

/-- C10: a request without a session identifier is tracked under a fresh
generated key, so two such requests from the same IP (with distinct
generated keys) create two distinct Visit Records, each with count 1 and
one page entry, and two distinct Online-Presence Records — the
(IP, session) deduplication never merges them. -/
theorem sessionless_requests_create_distinct_records (now1 now2 : Int)
    (k1 k2 ip : String) (req1 req2 : TrackReq)
    (vstore : List VisitorRec) (ostore : List OnlineRec)
    (hs1 : skipVisitor req1.path = false) (hb1 : isBot req1.userAgent = false)
    (hs2 : skipVisitor req2.path = false) (hb2 : isBot req2.userAgent = false)
    (ho1 : skipOnline req1.path = false) (ho2 : skipOnline req2.path = false)
    (hip1 : req1.ip = ip) (hip2 : req2.ip = ip)
    (hsid1 : req1.sessionID = none) (hsid2 : req2.sessionID = none)
    (hk : k1 ≠ k2)
    (hv1 : findVisitor vstore ip k1 = none)
    (hv2 : findVisitor vstore ip k2 = none)
    (ho1f : findOnline ostore k1 = none)
    (ho2f : findOnline ostore k2 = none) :
    (visitCountAt (trackVisitor now2 k2 req2 (trackVisitor now1 k1 req1 vstore)) ip k1 = 1 ∧
      pagesAt (trackVisitor now2 k2 req2 (trackVisitor now1 k1 req1 vstore)) ip k1
        = [visitEntry now1 req1] ∧
      visitCountAt (trackVisitor now2 k2 req2 (trackVisitor now1 k1 req1 vstore)) ip k2 = 1 ∧
      pagesAt (trackVisitor now2 k2 req2 (trackVisitor now1 k1 req1 vstore)) ip k2
        = [visitEntry now2 req2]) ∧
      (findOnline (trackOnlineUser now2 k2 req2 (trackOnlineUser now1 k1 req1 ostore)) k1
          = some (insertOnline now1 req1 k1) ∧
        findOnline (trackOnlineUser now2 k2 req2 (trackOnlineUser now1 k1 req1 ostore)) k2
          = some (insertOnline now2 req2 k2) ∧
        (insertOnline now1 req1 k1).sessionId ≠ (insertOnline now2 req2 k2).sessionId) := by
  have e1 : trackVisitor now1 k1 req1 vstore = upsertVisit now1 req1 ip k1 vstore := by
    simp [trackVisitor, hs1, hb1, hsid1, hip1]
  have e2 : trackVisitor now2 k2 req2 (upsertVisit now1 req1 ip k1 vstore)
      = upsertVisit now2 req2 ip k2 (upsertVisit now1 req1 ip k1 vstore) := by
    simp [trackVisitor, hs2, hb2, hsid2, hip2]
  have o1 : trackOnlineUser now1 k1 req1 ostore = upsertOnline now1 req1 k1 ostore := by
    simp [trackOnlineUser, ho1, hb1, hsid1]
  have o2 : trackOnlineUser now2 k2 req2 (upsertOnline now1 req1 k1 ostore)
      = upsertOnline now2 req2 k2 (upsertOnline now1 req1 k1 ostore) := by
    simp [trackOnlineUser, ho2, hb2, hsid2]
  rw [e1, e2, o1, o2]
  have f1 := findVisitor_upsertVisit_self now1 req1 ip k1 vstore
  rw [hv1] at f1
  simp only [Option.elim] at f1
  have f1k2 : findVisitor (upsertVisit now1 req1 ip k1 vstore) ip k2 = none := by
    rw [findVisitor_upsertVisit_other now1 req1 ip k2 k1 vstore (Ne.symm hk)]
    exact hv2
  have f2 := findVisitor_upsertVisit_self now2 req2 ip k2
    (upsertVisit now1 req1 ip k1 vstore)
  rw [f1k2] at f2
  simp only [Option.elim] at f2
  have f2k1 : findVisitor (upsertVisit now2 req2 ip k2 (upsertVisit now1 req1 ip k1 vstore)) ip k1
      = some (newVisitorRec now1 req1 ip k1) := by
    rw [findVisitor_upsertVisit_other now2 req2 ip k1 k2 _ hk]
    exact f1
  have g1 := findOnline_upsertOnline_self now1 req1 k1 ostore
  rw [ho1f] at g1
  simp only [Option.elim] at g1
  have g1k2 : findOnline (upsertOnline now1 req1 k1 ostore) k2 = none := by
    rw [findOnline_upsertOnline_other now1 req1 k2 k1 ostore (Ne.symm hk)]
    exact ho2f
  have g2 := findOnline_upsertOnline_self now2 req2 k2 (upsertOnline now1 req1 k1 ostore)
  rw [g1k2] at g2
  simp only [Option.elim] at g2
  have g2k1 : findOnline (upsertOnline now2 req2 k2 (upsertOnline now1 req1 k1 ostore)) k1
      = some (insertOnline now1 req1 k1) := by
    rw [findOnline_upsertOnline_other now2 req2 k1 k2 _ hk]
    exact g1
  refine ⟨⟨?_, ?_, ?_, ?_⟩, g2k1, g2, ?_⟩
  · unfold visitCountAt
    rw [f2k1]
    simp [newVisitorRec, applyVisit]
  · unfold pagesAt
    rw [f2k1]
    simp [newVisitorRec, applyVisit]
  · unfold visitCountAt
    rw [f2]
    simp [newVisitorRec, applyVisit]
  · unfold pagesAt
    rw [f2]
    simp [newVisitorRec, applyVisit]
  · simp only [insertOnline, refreshOnline]
    exact hk

/-- C10 witness: two sessionless requests from one IP with distinct
generated keys create two one-entry Visit Records. -/
theorem sessionless_requests_distinct_records_witness :
    visitCountAt
        (trackVisitor 9 "g2"
          ⟨"/home", "9.9.9.9", "Mozilla", none, none, none, none, none, none⟩
          (trackVisitor 5 "g1"
            ⟨"/home", "9.9.9.9", "Mozilla", none, none, none, none, none, none⟩
            []))
        "9.9.9.9" "g1" = 1 ∧
      visitCountAt
        (trackVisitor 9 "g2"
          ⟨"/home", "9.9.9.9", "Mozilla", none, none, none, none, none, none⟩
          (trackVisitor 5 "g1"
            ⟨"/home", "9.9.9.9", "Mozilla", none, none, none, none, none, none⟩
            []))
        "9.9.9.9" "g2" = 1 :=
  ⟨((sessionless_requests_create_distinct_records 5 9 "g1" "g2" "9.9.9.9"
      ⟨"/home", "9.9.9.9", "Mozilla", none, none, none, none, none, none⟩
      ⟨"/home", "9.9.9.9", "Mozilla", none, none, none, none, none, none⟩
      [] [] (by decide) (by decide) (by decide) (by decide) (by decide)
      (by decide) rfl rfl rfl rfl (by decide) rfl rfl rfl rfl).1).1,
    ((sessionless_requests_create_distinct_records 5 9 "g1" "g2" "9.9.9.9"
      ⟨"/home", "9.9.9.9", "Mozilla", none, none, none, none, none, none⟩
      ⟨"/home", "9.9.9.9", "Mozilla", none, none, none, none, none, none⟩
      [] [] (by decide) (by decide) (by decide) (by decide) (by decide)
      (by decide) rfl rfl rfl rfl (by decide) rfl rfl rfl rfl).1).2.2.1⟩

end OgrenciTakip
